import Mathlib

/-!
Verification of jknutson/docker-watcher (final revision, src/main.go).

The program is a single event loop: it reads docker events, filters for
container die/exec_die events with a non-"0" exit code, inspects the
container, formats a title/body/tag report, and dispatches it either to
the DataDog statsd sink or to stdout.  The model below embeds the pure
part of that loop body: attribute lookup (Go map indexing with its
zero-value default), the filter condition of lines 113-115, the
ContainerEvent construction of lines 136-155, the statsd event built by
datadogEvent (lines 69-81), the sink selection of lines 157-161, and the
select loop of lines 108-165 over an explicit input stream.  External
effects (the docker inspect call, the statsd transport) are parameters:
an inspect function returning none on error, and a send function
returning some error message on transport failure, both matching the
error-is-fatal handling in the source (log.Fatal).
-/

/-- Actor of a docker event message: `msg.Actor` in the source.  The Go
attribute map is embedded as an association list with unique keys not
assumed; lookup takes the first binding, and a missing key yields the Go
zero value for strings, the empty string. -/
structure Actor where
  ID : String
  Attributes : List (String × String)
deriving DecidableEq, Repr

/-- A docker event message, the fields of `events.Message` that the
source reads: `Type`, `Action`, `Actor`, `From`.  The Go field `Type`
is spelled `Type_` because `Type` is reserved in Lean. -/
structure Message where
  Type_ : String
  Action : String
  Actor : Actor
  From : String
deriving DecidableEq, Repr

/-- Container configuration from the inspect response, the fields read
by the source: `Config.Cmd` and `Config.Labels`. -/
structure ContainerConfig where
  Cmd : List String
  Labels : List (String × String)
deriving DecidableEq, Repr

/-- The part of the docker inspect response that the final revision
reads (`inspectResponse.Config`). -/
structure InspectResponse where
  Config : ContainerConfig
deriving DecidableEq, Repr

/-- ContainerEvent struct of the source (lines 27-32). -/
structure ContainerEvent where
  Title : String
  Body : String
  ContainerID : String
  Tags : List String
deriving DecidableEq, Repr

/-- Go map indexing `attrs[k]`: the first binding for `k`, or the empty
string (the string zero value) when the key is absent. -/
def lookupAttr (attrs : List (String × String)) (k : String) : String :=
  match attrs.find? (fun p => p.1 == k) with
  | some p => p.2
  | none => ""

/-- Whether the key is present in the attribute map (`_, ok := attrs[k]`
in Go; the source never tests presence, this is only used to state
claims about missing attributes). -/
def hasAttr (attrs : List (String × String)) (k : String) : Bool :=
  (attrs.find? (fun p => p.1 == k)).isSome

/-- The filter of lines 113-115: the event is processed iff
`msg.Type == "container" && (msg.Action == "die" || msg.Action == "exec_die")`
and the exitCode attribute read from the map is not the string "0". -/
def reportable (msg : Message) : Bool :=
  msg.Type_ == "container" && (msg.Action == "die" || msg.Action == "exec_die")
    && lookupAttr msg.Actor.Attributes "exitCode" != "0"

/-- Label rendering of lines 138-140: one `key=value` string per label,
in map order (`fmt.Sprintf("%s=%s", key, value)`). -/
def formatTags (labels : List (String × String)) : List String :=
  labels.map (fun p => p.1 ++ "=" ++ p.2)

/-- ContainerEvent construction of lines 136-155: ContainerID from the
actor ID, tags from the inspect labels, body accumulated line by line
(Name, ID, Image, Cmd, Exit Code, each newline-terminated), and the
title chosen by the action ("die" vs "exec_die"; the Go zero value ""
otherwise, though the filter admits no other action). -/
def mkContainerEvent (msg : Message) (inspectResponse : InspectResponse) : ContainerEvent :=
  let exitCode := lookupAttr msg.Actor.Attributes "exitCode"
  let fromContainer := msg.From
  let containerCmd := String.intercalate " " inspectResponse.Config.Cmd
  let tags := formatTags inspectResponse.Config.Labels
  let body0 := "Name: " ++ lookupAttr msg.Actor.Attributes "name" ++ "\n"
  let body1 := body0 ++ "ID: " ++ msg.Actor.ID ++ "\n"
  let body2 := body1 ++ "Image: " ++ lookupAttr msg.Actor.Attributes "image" ++ "\n"
  let body3 := body2 ++ "Cmd: " ++ containerCmd ++ "\n"
  let body4 := body3 ++ "Exit Code: " ++ exitCode ++ "\n"
  let title :=
    if msg.Action == "die" then
      fromContainer ++ " container exited non-zero: " ++ exitCode
    else if msg.Action == "exec_die" then
      fromContainer ++ " container process exited non-zero: " ++ exitCode
    else
      ""
  { Title := title, Body := body4, ContainerID := msg.Actor.ID, Tags := tags }

/-- The statsd event record assembled by `datadogEvent` (lines 69-74):
`statsd.NewEvent(e.Title, e.Body)` with AggregationKey, AlertType,
SourceTypeName and Tags set.  `statsd.Error` renders as "error". -/
structure StatsdEvent where
  Title : String
  Text : String
  AggregationKey : String
  AlertType : String
  SourceTypeName : String
  Tags : List String
deriving DecidableEq, Repr

/-- The pure part of `datadogEvent` (lines 69-74): the statsd event
built from a ContainerEvent. -/
def datadogEvent (e : ContainerEvent) : StatsdEvent :=
  { Title := e.Title
  , Text := e.Body
  , AggregationKey := e.ContainerID
  , AlertType := "error"
  , SourceTypeName := "DOCKER"
  , Tags := e.Tags }

/-- Go double-quote escaping of one character, as `fmt`'s %q verb
(strconv quoting) produces for the ASCII content this program handles:
backslash, double quote, newline, tab and carriage return are escaped,
other characters are copied verbatim. -/
def goQuoteChar (c : Char) : String :=
  if c = '\\' then "\\\\"
  else if c = '"' then "\\\""
  else if c = '\n' then "\\n"
  else if c = '\t' then "\\t"
  else if c = '\r' then "\\r"
  else String.singleton c

/-- Go %q of a string: the content escaped character by character and
wrapped in double quotes. -/
def goQuote (s : String) : String :=
  "\"" ++ String.join (s.data.map goQuoteChar) ++ "\""

/-- Go %q of a ContainerEvent value (`fmt.Printf("%q", containerEvent)`
at line 160): fmt prints a struct as its fields in declaration order,
brace-wrapped and space-separated, applying the verb recursively, and a
string slice as bracket-wrapped space-separated elements. -/
def goQuoteStruct (e : ContainerEvent) : String :=
  "\x7b" ++ goQuote e.Title ++ " " ++ goQuote e.Body ++ " " ++ goQuote e.ContainerID
    ++ " [" ++ String.intercalate " " (e.Tags.map goQuote) ++ "]\x7d"

/-- A dispatch to one of the two sinks: a statsd event handed to the
DataDog client, or a string printed to stdout. -/
inductive Dispatch where
  | datadog (ev : StatsdEvent)
  | console (s : String)
deriving DecidableEq, Repr

/-- Outcome of one loop-body execution: `ok` continues the loop, `fatal`
is `log.Fatal` (immediate process termination).  Either carries the sink
dispatches that happened during the iteration. -/
inductive StepResult where
  | ok (dispatches : List Dispatch)
  | fatal (dispatches : List Dispatch)
deriving DecidableEq, Repr

/-- The sink dispatches an outcome carries. -/
def StepResult.dispatches : StepResult → List Dispatch
  | StepResult.ok ds => ds
  | StepResult.fatal ds => ds

/-- Whether the outcome terminates the process. -/
def StepResult.isFatal : StepResult → Bool
  | StepResult.ok _ => false
  | StepResult.fatal _ => true

/-- `datadogEvent` with its transport (lines 69-81): the statsd event is
handed to the client; a transport error (`send` returning some error) is
`log.Fatal`, success continues. -/
def datadogEventStep (send : StatsdEvent → Option String) (e : ContainerEvent) : StepResult :=
  let event := datadogEvent e
  match send event with
  | some _ => StepResult.fatal [Dispatch.datadog event]
  | none => StepResult.ok [Dispatch.datadog event]

/-- The console sink (line 160): prints `"\n%q\n"` of the ContainerEvent
to stdout; it cannot fail. -/
def consoleEventStep (e : ContainerEvent) : StepResult :=
  StepResult.ok [Dispatch.console ("\n" ++ goQuoteStruct e ++ "\n")]

/-- One loop-body execution for an event message (lines 112-163):
apply the filter; on a reportable event call inspect, dying on error
(`log.Fatal`, line 119); then build the ContainerEvent and dispatch it
to the sink selected by the -output flag value. -/
def processMessage (output : String) (inspect : String → Option InspectResponse)
    (send : StatsdEvent → Option String) (msg : Message) : StepResult :=
  if msg.Type_ == "container" && (msg.Action == "die" || msg.Action == "exec_die") then
    let exitCode := lookupAttr msg.Actor.Attributes "exitCode"
    if exitCode != "0" then
      match inspect msg.Actor.ID with
      | none => StepResult.fatal []
      | some inspectResponse =>
        let containerEvent := mkContainerEvent msg inspectResponse
        if output == "datadog" then
          datadogEventStep send containerEvent
        else
          consoleEventStep containerEvent
    else
      StepResult.ok []
  else
    StepResult.ok []

/-- One value received by the select at lines 109-112: either an error
from the errs channel or a message from the msgs channel. -/
inductive LoopInput where
  | chanErr (e : String)
  | chanMsg (m : Message)
deriving DecidableEq, Repr

/-- Observable output of one iteration: the diagnostic line printed for
an error value, or the step outcome for a message. -/
inductive LoopOutput where
  | errorPrint (s : String)
  | step (r : StepResult)
deriving DecidableEq, Repr

/-- The watch loop (lines 108-165) over an explicit stream of delivered
values.  An error value is printed (`fmt.Printf("error: %q", err)`) and
the loop continues; a message runs the loop body, and a fatal outcome
(`log.Fatal`) ends the process, so nothing after it is processed. -/
def runLoop (output : String) (inspect : String → Option InspectResponse)
    (send : StatsdEvent → Option String) : List LoopInput → List LoopOutput
  | [] => []
  | LoopInput.chanErr e :: rest =>
      LoopOutput.errorPrint ("error: " ++ goQuote e) :: runLoop output inspect send rest
  | LoopInput.chanMsg m :: rest =>
      let r := processMessage output inspect send m
      if r.isFatal then
        [LoopOutput.step r]
      else
        LoopOutput.step r :: runLoop output inspect send rest

/-- JSON rendering style of the debug dump. -/
inductive JSONStyle where
  | indented
  | compact
deriving DecidableEq, Repr

/-- The debug dump of lines 121-134 in the final revision: when the
DEBUG environment variable is non-empty, the inspect response and the
message are marshalled with `json.MarshalIndent(v, "", "  ")` - always
indented - and printed; when DEBUG is empty no dump happens.  (The value
"pretty" is not consulted anywhere in this revision.) -/
def debugDumpStyle (debugEnv : String) : Option JSONStyle :=
  if debugEnv != "" then some JSONStyle.indented else none

/-- Characterisation of the filter as a proposition. -/
theorem reportable_eq_true_iff (msg : Message) :
    reportable msg = true ↔
      (msg.Type_ = "container" ∧ (msg.Action = "die" ∨ msg.Action = "exec_die") ∧
        lookupAttr msg.Actor.Attributes "exitCode" ≠ "0") := by
  simp [reportable, Bool.and_eq_true, Bool.or_eq_true, beq_iff_eq, bne_iff_ne, and_assoc]

/-- If the exitCode key is absent, the lookup yields the empty string. -/
theorem lookupAttr_of_not_hasAttr (attrs : List (String × String)) (k : String)
    (h : hasAttr attrs k = false) : lookupAttr attrs k = "" := by
  unfold hasAttr at h
  unfold lookupAttr
  cases hfind : attrs.find? (fun p => p.1 == k) with
  | none => rfl
  | some p => rw [hfind] at h; simp at h

/-- The die event of the spec's test vector: from nginx, actor abc123,
attributes name=web1, image=nginx:latest, exitCode=137. -/
def exMsgNginx : Message :=
  { Type_ := "container"
  , Action := "die"
  , From := "nginx"
  , Actor := { ID := "abc123"
             , Attributes := [("name", "web1"), ("image", "nginx:latest"), ("exitCode", "137")] } }

/-- The inspect response of the spec's test vector. -/
def exInspectNginx : InspectResponse :=
  { Config := { Cmd := ["nginx", "-g", "daemon off;"], Labels := [("env", "prod")] } }

/-- A container die event whose attribute map lacks the exitCode key. -/
def exMsgNoExit : Message :=
  { Type_ := "container"
  , Action := "die"
  , From := "busybox"
  , Actor := { ID := "id9", Attributes := [("name", "c1"), ("image", "busybox")] } }

/-- Inspect response for the missing-exit-code example. -/
def exInspectNoExit : InspectResponse :=
  { Config := { Cmd := ["sh"], Labels := [] } }

/-- An event whose type is not "container". -/
def exMsgNetwork : Message :=
  { Type_ := "network"
  , Action := "die"
  , From := "bridge"
  , Actor := { ID := "netid", Attributes := [("exitCode", "137")] } }

/-- A container die event that exited with code "0". -/
def exMsgZeroExit : Message :=
  { Type_ := "container"
  , Action := "die"
  , From := "redis"
  , Actor := { ID := "zid", Attributes := [("name", "r1"), ("exitCode", "0")] } }

/-- C1 counterexample: the filter of the final revision marks this
container die event reportable although its attribute map has no
exitCode key at all, so "reportable iff the exit-code attribute is
present and not equal to the string 0" fails on the code: the missing
attribute reads as the empty string, which passes the inequality test. -/
theorem C1_counterexample_missing_key :
    reportable exMsgNoExit = true ∧ hasAttr exMsgNoExit.Actor.Attributes "exitCode" = false :=
  ⟨by decide, by decide⟩

/-- C1 (amended): the filter marks an event reportable iff its type is
"container", its action is "die" or "exec_die", and the exit-code
attribute read from the map (the empty string when the key is absent) is
not equal to the string "0"; in particular a non-container event is
never reportable, a die event with exit code "0" is not reportable, and
a die event with exit code "137" is reportable. -/
theorem C1_filter_characterisation :
    (∀ msg : Message, reportable msg = true ↔
      (msg.Type_ = "container" ∧ (msg.Action = "die" ∨ msg.Action = "exec_die") ∧
        lookupAttr msg.Actor.Attributes "exitCode" ≠ "0")) ∧
    (∀ msg : Message, msg.Type_ ≠ "container" → reportable msg = false) ∧
    (∀ msg : Message, lookupAttr msg.Actor.Attributes "exitCode" = "0" →
      reportable msg = false) ∧
    reportable exMsgNginx = true := by
  refine ⟨reportable_eq_true_iff, ?_, ?_, by decide⟩
  · intro msg ht
    by_contra h
    rw [Bool.not_eq_false] at h
    exact ht ((reportable_eq_true_iff msg).mp h).1
  · intro msg he
    by_contra h
    rw [Bool.not_eq_false] at h
    exact ((reportable_eq_true_iff msg).mp h).2.2 he

/-- C1 witness: the characterisation applied to the non-container event
and to the die event with exit code "0". -/
theorem C1_filter_characterisation_witness :
    reportable exMsgNetwork = false ∧ reportable exMsgZeroExit = false :=
  ⟨C1_filter_characterisation.2.1 exMsgNetwork (by decide),
   C1_filter_characterisation.2.2.1 exMsgZeroExit (by decide)⟩

/-- C2: the formatter yields, for every event and inspect response, a
body of exactly the newline-terminated lines Name, ID, Image, Cmd (the
command sequence joined with single spaces) and Exit Code in that order,
a title of "from container exited non-zero: code" for action "die" and
"from container process exited non-zero: code" for "exec_die", and one
key=value tag per label; and on the test vector (die, from nginx, actor
abc123, name web1, image nginx:latest, exit code 137, cmd nginx -g
daemon off;, label env=prod) the exact strings required. -/
theorem C2_formatter_template :
    (∀ (msg : Message) (r : InspectResponse),
      (mkContainerEvent msg r).Body =
        "Name: " ++ lookupAttr msg.Actor.Attributes "name" ++ "\n" ++
        "ID: " ++ msg.Actor.ID ++ "\n" ++
        "Image: " ++ lookupAttr msg.Actor.Attributes "image" ++ "\n" ++
        "Cmd: " ++ String.intercalate " " r.Config.Cmd ++ "\n" ++
        "Exit Code: " ++ lookupAttr msg.Actor.Attributes "exitCode" ++ "\n" ∧
      (mkContainerEvent msg r).Title =
        (if msg.Action = "die" then
          msg.From ++ " container exited non-zero: " ++ lookupAttr msg.Actor.Attributes "exitCode"
         else if msg.Action = "exec_die" then
          msg.From ++ " container process exited non-zero: "
            ++ lookupAttr msg.Actor.Attributes "exitCode"
         else "") ∧
      (mkContainerEvent msg r).Tags = r.Config.Labels.map (fun p => p.1 ++ "=" ++ p.2)) ∧
    (mkContainerEvent exMsgNginx exInspectNginx).Title = "nginx container exited non-zero: 137" ∧
    (mkContainerEvent exMsgNginx exInspectNginx).Body =
      "Name: web1\nID: abc123\nImage: nginx:latest\nCmd: nginx -g daemon off;\nExit Code: 137\n" ∧
    (mkContainerEvent exMsgNginx exInspectNginx).Tags = ["env=prod"] := by
  refine ⟨?_, rfl, rfl, rfl⟩
  intro msg r
  refine ⟨rfl, ?_, rfl⟩
  by_cases hd : msg.Action = "die"
  · simp [mkContainerEvent, hd]
  · by_cases he : msg.Action = "exec_die"
    · simp [mkContainerEvent, hd, he]
    · simp [mkContainerEvent, hd, he]

/-- The loop body either skips the event, dies on inspect failure with
no dispatch, or dispatches the formatted event to the sink selected by
the output flag. -/
theorem processMessage_cases (output : String) (inspect : String → Option InspectResponse)
    (send : StatsdEvent → Option String) (msg : Message) :
    processMessage output inspect send msg = StepResult.ok [] ∨
    (reportable msg = true ∧ inspect msg.Actor.ID = none ∧
      processMessage output inspect send msg = StepResult.fatal []) ∨
    (∃ r, reportable msg = true ∧ inspect msg.Actor.ID = some r ∧
      (processMessage output inspect send msg = datadogEventStep send (mkContainerEvent msg r) ∨
       processMessage output inspect send msg
         = consoleEventStep (mkContainerEvent msg r))) := by
  by_cases h1 : (msg.Type_ == "container" && (msg.Action == "die" || msg.Action == "exec_die"))
      = true
  · by_cases h2 : (lookupAttr msg.Actor.Attributes "exitCode" != "0") = true
    · have hrep : reportable msg = true := by
        unfold reportable
        rw [Bool.and_eq_true]
        exact ⟨h1, h2⟩
      cases hins : inspect msg.Actor.ID with
      | none =>
          right; left
          refine ⟨hrep, rfl, ?_⟩
          simp [processMessage, h1, h2, hins]
      | some r =>
          right; right
          refine ⟨r, hrep, rfl, ?_⟩
          by_cases hout : output == "datadog"
          · left; simp [processMessage, h1, h2, hins, hout]
          · right; simp [processMessage, h1, h2, hins, hout]
    · left
      rw [Bool.not_eq_true] at h2
      simp [processMessage, h1, h2]
  · left
    rw [Bool.not_eq_true] at h1
    simp [processMessage, h1]

/-- The filter is the conjunction of the two guard conditions of the
loop body. -/
theorem reportable_split (msg : Message) (hrep : reportable msg = true) :
    (msg.Type_ == "container" && (msg.Action == "die" || msg.Action == "exec_die")) = true ∧
    (lookupAttr msg.Actor.Attributes "exitCode" != "0") = true := by
  unfold reportable at hrep
  rw [Bool.and_eq_true] at hrep
  exact hrep

/-- C3: for a reportable event with a successful inspection and a
healthy transport, the loop body emits exactly one statsd event, and it
carries the formatted title and body, aggregation key equal to the
container identifier, alert type "error", source type name "DOCKER",
and exactly the rendered label tags. -/
theorem C3_metrics_dispatch (inspect : String → Option InspectResponse)
    (send : StatsdEvent → Option String) (msg : Message) (r : InspectResponse)
    (hrep : reportable msg = true) (hins : inspect msg.Actor.ID = some r)
    (hsend : ∀ ev, send ev = none) :
    processMessage "datadog" inspect send msg =
      StepResult.ok [Dispatch.datadog
        { Title := (mkContainerEvent msg r).Title
        , Text := (mkContainerEvent msg r).Body
        , AggregationKey := msg.Actor.ID
        , AlertType := "error"
        , SourceTypeName := "DOCKER"
        , Tags := formatTags r.Config.Labels }] := by
  obtain ⟨h1, h2⟩ := reportable_split msg hrep
  simp only [processMessage, h1, h2, hins, if_true]
  simp [datadogEventStep, hsend, datadogEvent, mkContainerEvent]

/-- C3 witness: the dispatch evaluated on the nginx test vector. -/
theorem C3_metrics_dispatch_witness :
    processMessage "datadog" (fun _ => some exInspectNginx) (fun _ => none) exMsgNginx =
      StepResult.ok [Dispatch.datadog
        { Title := (mkContainerEvent exMsgNginx exInspectNginx).Title
        , Text := (mkContainerEvent exMsgNginx exInspectNginx).Body
        , AggregationKey := exMsgNginx.Actor.ID
        , AlertType := "error"
        , SourceTypeName := "DOCKER"
        , Tags := formatTags exInspectNginx.Config.Labels }] :=
  C3_metrics_dispatch (fun _ => some exInspectNginx) (fun _ => none) exMsgNginx exInspectNginx
    (by decide) rfl (fun _ => rfl)

/-- C4: for a reportable event whose inspection fails, the loop body is
fatal (log.Fatal terminates the process) and dispatches nothing to any
sink, whatever the selected output. -/
theorem C4_inspect_failure_fatal (output : String) (inspect : String → Option InspectResponse)
    (send : StatsdEvent → Option String) (msg : Message)
    (hrep : reportable msg = true) (hins : inspect msg.Actor.ID = none) :
    processMessage output inspect send msg = StepResult.fatal [] := by
  obtain ⟨h1, h2⟩ := reportable_split msg hrep
  simp [processMessage, h1, h2, hins]

/-- C4 witness: inspect failure on the nginx test vector. -/
theorem C4_inspect_failure_fatal_witness :
    processMessage "datadog" (fun _ => none) (fun _ => none) exMsgNginx
      = StepResult.fatal [] :=
  C4_inspect_failure_fatal "datadog" (fun _ => none) (fun _ => none) exMsgNginx
    (by decide) rfl

/-- C5: a value received on the error stream is printed as a diagnostic
line and the loop goes on to process the rest of the stream unchanged:
an error never terminates the loop and never affects later events. -/
theorem C5_error_stream_continues (output : String) (inspect : String → Option InspectResponse)
    (send : StatsdEvent → Option String) (e : String) (rest : List LoopInput) :
    runLoop output inspect send (LoopInput.chanErr e :: rest) =
      LoopOutput.errorPrint ("error: " ++ goQuote e) :: runLoop output inspect send rest := rfl

/-- C6: a sink dispatch exists for an iteration only when the inspect
call returned a response, and any dispatched title/body is the one
formatted from exactly that response: no ContainerEvent is built for an
event whose inspection has not succeeded. -/
theorem C6_format_after_inspect (output : String) (inspect : String → Option InspectResponse)
    (send : StatsdEvent → Option String) (msg : Message) (d : Dispatch)
    (hd : d ∈ (processMessage output inspect send msg).dispatches) :
    ∃ r, inspect msg.Actor.ID = some r ∧
      (d = Dispatch.datadog (datadogEvent (mkContainerEvent msg r)) ∨
       d = Dispatch.console ("\n" ++ goQuoteStruct (mkContainerEvent msg r) ++ "\n")) := by
  rcases processMessage_cases output inspect send msg with h | ⟨_, _, h⟩ | ⟨r, _, hins, h | h⟩
  · rw [h] at hd
    simp [StepResult.dispatches] at hd
  · rw [h] at hd
    simp [StepResult.dispatches] at hd
  · rw [h] at hd
    refine ⟨r, hins, Or.inl ?_⟩
    cases hsend : send (datadogEvent (mkContainerEvent msg r)) with
    | some err =>
        simp [datadogEventStep, hsend, StepResult.dispatches] at hd
        exact hd
    | none =>
        simp [datadogEventStep, hsend, StepResult.dispatches] at hd
        exact hd
  · rw [h] at hd
    refine ⟨r, hins, Or.inr ?_⟩
    simp [consoleEventStep, StepResult.dispatches] at hd
    exact hd

/-- C6 witness: the datadog dispatch of the nginx test vector is traced
back to its successful inspection. -/
theorem C6_format_after_inspect_witness :
    ∃ r, (fun _ => some exInspectNginx : String → Option InspectResponse) exMsgNginx.Actor.ID
        = some r ∧
      (Dispatch.datadog (datadogEvent (mkContainerEvent exMsgNginx exInspectNginx))
          = Dispatch.datadog (datadogEvent (mkContainerEvent exMsgNginx r)) ∨
       Dispatch.datadog (datadogEvent (mkContainerEvent exMsgNginx exInspectNginx))
          = Dispatch.console ("\n" ++ goQuoteStruct (mkContainerEvent exMsgNginx r) ++ "\n")) :=
  C6_format_after_inspect "datadog" (fun _ => some exInspectNginx) (fun _ => none) exMsgNginx
    (Dispatch.datadog (datadogEvent (mkContainerEvent exMsgNginx exInspectNginx)))
    (by decide)

/-- C7: a transport failure of the metrics sink is fatal (the statsd
event had been handed to the client, then log.Fatal terminates the
process), while the console sink never produces a fatal outcome. -/
theorem C7_sink_failure_policy (send : StatsdEvent → Option String) (e : ContainerEvent)
    (err : String) (hsend : send (datadogEvent e) = some err) :
    datadogEventStep send e = StepResult.fatal [Dispatch.datadog (datadogEvent e)] ∧
    ∀ e2 : ContainerEvent, (consoleEventStep e2).isFatal = false := by
  constructor
  · simp [datadogEventStep, hsend]
  · intro e2
    rfl

/-- C7 witness: a failing transport on the nginx test vector. -/
theorem C7_sink_failure_policy_witness :
    datadogEventStep (fun _ => some "udp write failed")
        (mkContainerEvent exMsgNginx exInspectNginx)
      = StepResult.fatal
          [Dispatch.datadog (datadogEvent (mkContainerEvent exMsgNginx exInspectNginx))] ∧
    ∀ e2 : ContainerEvent, (consoleEventStep e2).isFatal = false :=
  C7_sink_failure_policy (fun _ => some "udp write failed")
    (mkContainerEvent exMsgNginx exInspectNginx) "udp write failed" rfl

/-- C8: in the final revision the debug dump fires for any non-empty
DEBUG value and is always indented - json.MarshalIndent is called
unconditionally - so the value "1" already yields indented JSON and
"pretty" selects nothing beyond what any non-empty value does, contrary
to the usage text of the program. -/
theorem C8_debug_dump_always_indented :
    debugDumpStyle "1" = some JSONStyle.indented ∧
    debugDumpStyle "pretty" = some JSONStyle.indented ∧
    debugDumpStyle "" = none :=
  ⟨rfl, rfl, rfl⟩

/-- C9: a container die/exec_die event whose attribute map lacks the
exitCode key is reportable (the missing attribute reads as the empty
string, which differs from "0"), and the report renders the empty
string as the exit code in the title and in the Exit Code line of the
body. -/
theorem C9_missing_key_reportable (msg : Message) (r : InspectResponse)
    (ht : msg.Type_ = "container") (ha : msg.Action = "die" ∨ msg.Action = "exec_die")
    (hm : hasAttr msg.Actor.Attributes "exitCode" = false) :
    reportable msg = true ∧
    (mkContainerEvent msg r).Title =
      (if msg.Action = "die" then msg.From ++ " container exited non-zero: " ++ ""
       else msg.From ++ " container process exited non-zero: " ++ "") ∧
    (mkContainerEvent msg r).Body =
      "Name: " ++ lookupAttr msg.Actor.Attributes "name" ++ "\n" ++
      "ID: " ++ msg.Actor.ID ++ "\n" ++
      "Image: " ++ lookupAttr msg.Actor.Attributes "image" ++ "\n" ++
      "Cmd: " ++ String.intercalate " " r.Config.Cmd ++ "\n" ++
      "Exit Code: " ++ "" ++ "\n" := by
  have hl : lookupAttr msg.Actor.Attributes "exitCode" = "" :=
    lookupAttr_of_not_hasAttr _ _ hm
  refine ⟨(reportable_eq_true_iff msg).mpr ⟨ht, ha, by rw [hl]; decide⟩, ?_, ?_⟩
  · rcases ha with h | h
    · simp [mkContainerEvent, h, hl]
    · simp [mkContainerEvent, h, hl]
  · have hB : (mkContainerEvent msg r).Body =
        "Name: " ++ lookupAttr msg.Actor.Attributes "name" ++ "\n" ++
        "ID: " ++ msg.Actor.ID ++ "\n" ++
        "Image: " ++ lookupAttr msg.Actor.Attributes "image" ++ "\n" ++
        "Cmd: " ++ String.intercalate " " r.Config.Cmd ++ "\n" ++
        "Exit Code: " ++ lookupAttr msg.Actor.Attributes "exitCode" ++ "\n" := rfl
    rw [hl] at hB
    exact hB

/-- C9 witness: the busybox die event with no exitCode attribute. -/
theorem C9_missing_key_reportable_witness :
    reportable exMsgNoExit = true ∧
    (mkContainerEvent exMsgNoExit exInspectNoExit).Title =
      (if exMsgNoExit.Action = "die"
       then exMsgNoExit.From ++ " container exited non-zero: " ++ ""
       else exMsgNoExit.From ++ " container process exited non-zero: " ++ "") ∧
    (mkContainerEvent exMsgNoExit exInspectNoExit).Body =
      "Name: " ++ lookupAttr exMsgNoExit.Actor.Attributes "name" ++ "\n" ++
      "ID: " ++ exMsgNoExit.Actor.ID ++ "\n" ++
      "Image: " ++ lookupAttr exMsgNoExit.Actor.Attributes "image" ++ "\n" ++
      "Cmd: " ++ String.intercalate " " exInspectNoExit.Config.Cmd ++ "\n" ++
      "Exit Code: " ++ "" ++ "\n" :=
  C9_missing_key_reportable exMsgNoExit exInspectNoExit rfl (Or.inl rfl) (by decide)

/-- C10: the sink is chosen solely by string equality of the output
flag value with "datadog": any other value selects the console sink,
with no validation and no error, and the console sink prints the
Go-quoted structural dump of the ContainerEvent, not the formatted
body. -/
theorem C10_sink_selection (output : String) (inspect : String → Option InspectResponse)
    (send : StatsdEvent → Option String) (msg : Message) (r : InspectResponse)
    (hrep : reportable msg = true) (hins : inspect msg.Actor.ID = some r)
    (hout : output ≠ "datadog") :
    processMessage output inspect send msg =
      StepResult.ok
        [Dispatch.console ("\n" ++ goQuoteStruct (mkContainerEvent msg r) ++ "\n")] := by
  obtain ⟨h1, h2⟩ := reportable_split msg hrep
  have ho : (output == "datadog") = false := by
    rw [beq_eq_false_iff_ne]
    exact hout
  simp [processMessage, h1, h2, hins, ho, consoleEventStep]

/-- C10 witness: a misspelled output value selects the console sink on
the busybox event. -/
theorem C10_sink_selection_witness :
    processMessage "dataDog" (fun _ => some exInspectNoExit) (fun _ => none) exMsgNoExit =
      StepResult.ok
        [Dispatch.console
          ("\n" ++ goQuoteStruct (mkContainerEvent exMsgNoExit exInspectNoExit) ++ "\n")] :=
  C10_sink_selection "dataDog" (fun _ => some exInspectNoExit) (fun _ => none) exMsgNoExit
    exInspectNoExit (by decide) rfl (by decide)
